import Mathlib

/-!
Verification of the report-info-agent extraction pipeline.

Shallow embedding of the control logic in:
- src/pipeline/core/llm_extractor.py (verification / ranking post-processing),
- src/pipeline/orchestrator.py (process_task, _run_verification, _run_ranking),
- src/pipeline/utils/file_utils.py (save_results_csv),
- src/preprocessing/orchestrator.py (chapter boundary locator loop).

External LLM / converter calls are modelled as oracle-response inputs
(an Option value: none models an API failure, a missing tool call, or a
schema-validation failure, each of which makes the Python function return
None or raise).  Python exceptions inside process_task's try-block are
modelled by the failure branches of the embedding.  The unbound name
`schemas` at llm_extractor.py line 363 (the module imports only the class
names from core.schemas) makes the completeness-backfill loop raise
NameError, which the blanket `except Exception` turns into a None return;
that path is therefore embedded as `none`.
-/

namespace ReportInfo

inductive Level where
  | High
  | Medium
  | Low
deriving DecidableEq, Repr

/-- Numeric severity of a confidence level, used to state monotonicity:
High = 2, Medium = 1, Low = 0.  "Never upgraded" means the value never
increases. -/
def levelValue : Level → Nat
  | Level.High => 2
  | Level.Medium => 1
  | Level.Low => 0

structure ConfidenceAssessment where
  confidence_level : Level
  doubts : List String
deriving DecidableEq, Repr

structure Person where
  rank : Int
  name : String
  role : String
deriving DecidableEq, Repr

inductive Cat where
  | Directors
  | Supervisors
  | SeniorManagement
deriving DecidableEq, Repr

structure CategoryExtractionResult where
  category : Cat
  persons : List Person
  assessment : ConfidenceAssessment
deriving DecidableEq, Repr

structure NameVerificationResult where
  found_names : List String
  assessment : ConfidenceAssessment
deriving DecidableEq, Repr

inductive TaskStatus where
  | success
  | review
  | failed
deriving DecidableEq, Repr

/-- Whitespace as recognized by Python str.strip on the strings this
pipeline handles. -/
def isWs (c : Char) : Bool :=
  c = ' ' || c = '\t' || c = '\n' || c = '\r'

/-- Python `not s.strip()`: the string is empty or all whitespace. -/
def strBlank (s : String) : Bool :=
  s.data.all isWs

/-- Does the character list start with the given pattern? -/
def charsStarts : List Char → List Char → Bool
  | _, [] => true
  | [], _ :: _ => false
  | a :: as, b :: bs => a = b && charsStarts as bs

/-- Does the character list contain the pattern as a contiguous run? -/
def charsHas (pat : List Char) : List Char → Bool
  | [] => charsStarts [] pat
  | c :: rest => charsStarts (c :: rest) pat || charsHas pat rest

/-- Python `pat in s` substring test. -/
def strContains (s pat : String) : Bool :=
  charsHas pat.data s.data

/-- Number of pieces produced by Python s.split(sep) for a one-character
separator: one more than the occurrence count of the separator. -/
def splitPieces (s : String) (sep : Char) : Nat :=
  s.data.count sep + 1

/-- Doubt appended by the verifier hallucination filter
(llm_extractor.py line 216). -/
def verifyHallucinationDoubt (invalid : List String) : String :=
  "模型产生了幻觉，返回了名单外的姓名: " ++ String.intercalate (", ") invalid ++ "，已自动过滤。"

/-- Hallucination filter of verify_name_presence (llm_extractor.py lines
209-218): names outside the target list are stripped, a doubt is appended
and the confidence level is set to Medium. -/
def verifyPost (target : List String) (r : NameVerificationResult) : NameVerificationResult :=
  let invalid := (r.found_names.dedup).filter (fun n => !(target.contains n))
  if invalid.isEmpty then r
  else
    { found_names := r.found_names.filter (fun n => target.contains n),
      assessment :=
        { confidence_level := Level.Medium,
          doubts := r.assessment.doubts ++ [verifyHallucinationDoubt invalid] } }

/-- verify_name_presence (llm_extractor.py lines 133-228): early returns
for an empty target list and for blank content, then the oracle response
(none = API failure / missing tool call / schema violation) followed by
the hallucination filter. -/
def verifyNames (content : String) (target : List String)
    (resp : Option NameVerificationResult) : Option NameVerificationResult :=
  if target.isEmpty then
    some { found_names := [],
           assessment := { confidence_level := Level.High, doubts := ["标准名单为空，未执行核对。"] } }
  else if strBlank content then
    some { found_names := [],
           assessment := { confidence_level := Level.High, doubts := ["原文内容为空，未执行核对。"] } }
  else
    match resp with
    | none => none
    | some r => some (verifyPost target r)

/-- _run_verification (orchestrator.py lines 84-114): blank text short
circuits to an empty found-set with Low confidence and no oracle call; a
None verification result raises (modelled as none); otherwise the found
names are turned into a set (dedup). -/
def runVerification (sourceText : String) (combined : List String)
    (resp : Option NameVerificationResult) : Option (List String × ConfidenceAssessment) :=
  if strBlank sourceText then
    some ([], { confidence_level := Level.Low, doubts := ["核对的原文内容为空。"] })
  else
    match verifyNames sourceText combined resp with
    | none => none
    | some r => some (r.found_names.dedup, r.assessment)

/-- Doubt appended by the ranker hallucination filter
(llm_extractor.py line 349). -/
def rankHallucinationDoubt (invalid : List String) : String :=
  "模型产生了幻觉，返回了名单外的姓名: " ++ String.intercalate (", ") invalid ++ "，已自动过滤。"

/-- Hallucination filter of rank_names_from_text (llm_extractor.py lines
343-352): persons whose name is outside the target list are removed, a
doubt is appended and the confidence level is set to Medium. -/
def rankFilter (target : List String) (ps : List Person) (a : ConfidenceAssessment) :
    List Person × ConfidenceAssessment :=
  let invalid := ((ps.map Person.name).dedup).filter (fun n => !(target.contains n))
  if invalid.isEmpty then (ps, a)
  else
    (ps.filter (fun p => target.contains p.name),
     { confidence_level := Level.Medium,
       doubts := a.doubts ++ [rankHallucinationDoubt invalid] })

/-- Doubt appended when the person count mismatches the roster size but no
name is missing (llm_extractor.py line 369). -/
def rankCountDoubt (got target : Nat) : String :=
  "模型返回人数 (" ++ toString got ++ ") 与目标 (" ++ toString target ++ ") 不匹配，但姓名集合匹配。"

/-- Message used both for the duplicate check and the appended doubt when
rank = -1 persons remain (llm_extractor.py line 378). -/
def rankNotFoundMsg (n : Nat) : String :=
  "名单中 " ++ toString n ++ " 人在原文中未找到 (rank: -1)"

/-- Post-processing of rank_names_from_text (llm_extractor.py lines
339-384).  Step 1: hallucination filter.  Step 2: if the person count
differs from the roster size and roster members are missing, the code
executes `schemas.Person(rank=-1, ...)` where `schemas` is an unbound
name (only the class names are imported), so a NameError is raised,
caught by the blanket `except`, and the function returns None — embedded
as `none`.  If no member is missing it appends a count-mismatch doubt and
sets Medium.  Step 3: if any rank = -1 person remains, append a doubt
(unless an existing doubt already contains the message) and degrade High
to Medium. -/
def rankPost (target : List String) (v : CategoryExtractionResult) :
    Option CategoryExtractionResult :=
  let targetCount := target.dedup.length
  let fr := rankFilter target v.persons v.assessment
  let ps1 := fr.1
  let a1 := fr.2
  let names1 := ps1.map Person.name
  let missing := target.dedup.filter (fun n => !(names1.contains n))
  if ps1.length ≠ targetCount ∧ ¬ missing.isEmpty then
    none
  else
    let a2 :=
      if ps1.length ≠ targetCount then
        { confidence_level := Level.Medium,
          doubts := a1.doubts ++ [rankCountDoubt ps1.length targetCount] }
      else a1
    let notFound := (ps1.filter (fun p => p.rank = -1)).map Person.name
    if notFound.isEmpty then
      some { category := v.category, persons := ps1, assessment := a2 }
    else
      let msg := rankNotFoundMsg notFound.length
      let doubts3 :=
        if a2.doubts.any (fun d => strContains d msg) then a2.doubts
        else a2.doubts ++ [msg ++ ": " ++ String.intercalate (", ") notFound]
      let lvl3 := if a2.confidence_level = Level.High then Level.Medium else a2.confidence_level
      some { category := v.category, persons := ps1,
             assessment := { confidence_level := lvl3, doubts := doubts3 } }

/-- rank_names_from_text (llm_extractor.py lines 268-393): empty roster
short circuits; a none oracle response models API failure / missing tool
call / schema violation; otherwise the validated result goes through
rankPost. -/
def rankNamesResult (category : Cat) (target : List String)
    (resp : Option CategoryExtractionResult) : Option CategoryExtractionResult :=
  if target.isEmpty then
    some { category := category, persons := [],
           assessment := { confidence_level := Level.High, doubts := ["标准名单为空，未执行提取。"] } }
  else
    match resp with
    | none => none
    | some v => rankPost target v

/-- Doubt message of the orchestrator sentinel check
(orchestrator.py line 63). -/
def orchNotFoundMsg (n : Nat) : String :=
  "名单中 " ++ toString n ++ " 人未在原文中找到"

/-- Doubt of the orchestrator defensive count check
(orchestrator.py line 74). -/
def orchCountDoubt (got target : Nat) : String :=
  "严重错误：返回总人数 " ++ toString got ++ " != 名单人数 " ++ toString target

/-- Sentinel check inside _run_ranking (orchestrator.py lines 52-69): if
rank = -1 persons exist, append a doubt naming them (unless an existing
doubt already contains the message — the message differs from the
extractor's, so it never deduplicates across the two layers) and degrade
High to Medium. -/
def orchSentinelStep (r : CategoryExtractionResult) : CategoryExtractionResult :=
  let notFound := r.persons.filter (fun p => p.rank = -1)
  if notFound.length > 0 then
    let msg := orchNotFoundMsg notFound.length
    let doubts1 :=
      if r.assessment.doubts.any (fun d => strContains d msg) then r.assessment.doubts
      else r.assessment.doubts ++ [msg ++ ": " ++ String.intercalate (", ") ((notFound.map Person.name).dedup)]
    let lvl1 :=
      if r.assessment.confidence_level = Level.High then Level.Medium
      else r.assessment.confidence_level
    { r with assessment := { confidence_level := lvl1, doubts := doubts1 } }
  else r

/-- Defensive count check inside _run_ranking (orchestrator.py lines
71-75): on a person-count mismatch against the roster size, append a
doubt and set the level to Low. -/
def orchDefensiveStep (target : List String) (r : CategoryExtractionResult) :
    CategoryExtractionResult :=
  if r.persons.length ≠ target.dedup.length then
    { r with assessment :=
        { confidence_level := Level.Low,
          doubts := r.assessment.doubts ++ [orchCountDoubt r.persons.length target.dedup.length] } }
  else r

/-- Per-category post-processing inside _run_ranking (orchestrator.py
lines 44-75): the sentinel check followed by the defensive count check
(neither changes persons), paired with the count of rank >= 0 persons. -/
def orchCategoryPost (target : List String) (r : CategoryExtractionResult) :
    CategoryExtractionResult × Nat :=
  (orchDefensiveStep target (orchSentinelStep r),
   (r.persons.filter (fun p => 0 ≤ p.rank)).length)

def catList : List Cat := [Cat.Directors, Cat.Supervisors, Cat.SeniorManagement]

def catLower : Cat → String
  | Cat.Directors => "directors"
  | Cat.Supervisors => "supervisors"
  | Cat.SeniorManagement => "seniormanagement"

/-- _run_ranking (orchestrator.py lines 14-80): blank source text skips
everything; per category, an empty roster is skipped, a None extraction
result is dropped (the category is simply absent from the results), and
each kept result goes through orchCategoryPost.  The second component is
total_found_count (persons with rank >= 0). -/
def runRanking (sourceText : String) (rosters : Cat → List String)
    (resp : Cat → Option CategoryExtractionResult) :
    List (Cat × CategoryExtractionResult) × Nat :=
  if strBlank sourceText then ([], 0)
  else
    catList.foldl (fun acc c =>
      let target := rosters c
      if target.isEmpty then acc
      else
        match rankNamesResult c target (resp c) with
        | none => acc
        | some r =>
          let pr := orchCategoryPost target r
          (acc.1 ++ [(c, pr.1)], acc.2 + pr.2)) ([], 0)

/-- Final status computation of process_task (orchestrator.py lines
253-298): default success; empty results with a non-empty roster give
failed; any verification doubt, non-High category confidence or category
doubt moves to review; finally, if P1's verification found the whole
roster but ranking found fewer, a still-success status is forced to
review. -/
def computeStatus (results : List (Cat × CategoryExtractionResult)) (vdoubts : List String)
    (p1Count total finalFound : Nat) : TaskStatus :=
  let st0 :=
    if results.isEmpty then
      (if 0 < total then TaskStatus.failed else TaskStatus.success)
    else TaskStatus.success
  let needsReview :=
    (!vdoubts.isEmpty) ||
      results.any (fun pr =>
        pr.2.assessment.confidence_level ≠ Level.High || !pr.2.assessment.doubts.isEmpty)
  let st1 := if needsReview then TaskStatus.review else st0
  if p1Count = total ∧ finalFound < total ∧ st1 = TaskStatus.success then TaskStatus.review
  else st1

structure ExtractedTable where
  description : String
  content : String
deriving DecidableEq, Repr

/-- Core blocks returned by extract_core_blocks: the table list and the
optional employment-section content (only the content matters to the
pipeline). -/
structure CoreBlocks where
  tables : List ExtractedTable
  employmentSection : Option String
deriving DecidableEq, Repr

inductive Src where
  | P1
  | P2
deriving DecidableEq, Repr

/-- External inputs of one process_task run.  Each Option models the
outcome of an external call: none is a fatal error (exception or None
return) of that stage. -/
structure TaskInputs where
  taskId : String
  rosters : Cat → List String
  mdContent : Option String
  coreBlocks : Option CoreBlocks
  p1Resp : Option NameVerificationResult
  p2Resp : Option NameVerificationResult
  rankResp : Cat → Option CategoryExtractionResult

/-- Observable trace of one process_task run: final status, debug file
names in the order they are recorded (the log is appended in the finally
block), number of _run_verification invocations, the selected source, the
found counts, the roster size, total_found_count from ranking, and
whether _run_ranking was invoked. -/
structure TaskTrace where
  status : TaskStatus
  files : List String
  verifyRuns : Nat
  choice : Option Src
  p1Count : Option Nat
  p2Count : Option Nat
  total : Nat
  finalFound : Option Nat
  rankingRan : Bool
deriving Repr

/-- Combined roster: union of the three category rosters
(orchestrator.py lines 153-157). -/
def combinedOf (rosters : Cat → List String) : List String :=
  (rosters Cat.Directors ++ rosters Cat.Supervisors ++ rosters Cat.SeniorManagement).dedup

/-- P1 source text: table contents joined by the fixed separator
(orchestrator.py line 186); empty when there are no tables. -/
def p1TextOf (cb : CoreBlocks) : String :=
  String.intercalate ("\n\n---\n\n") (cb.tables.map ExtractedTable.content)

/-- P2 source text: the employment-section content, or empty when absent
(orchestrator.py lines 213-218). -/
def p2TextOf (cb : CoreBlocks) : String :=
  match cb.employmentSection with
  | some c => c
  | none => ""

/-- Trace of a run that ended with an exception caught by the outer
handler (status failed) before any source was selected. -/
def failTrace (files : List String) (runs : Nat) (total : Nat) : TaskTrace :=
  { status := TaskStatus.failed, files := files, verifyRuns := runs, choice := none,
    p1Count := none, p2Count := none, total := total, finalFound := none, rankingRan := false }

/-- Continuation of process_task after a source was selected
(orchestrator.py lines 241-298): blank selected text raises (status
failed, no ranking); otherwise ranking runs, the per-category debug files
are recorded, and the final status is computed. -/
def afterSelection (inp : TaskInputs) (total : Nat) (choice : Src) (text : String)
    (vdoubts : List String) (runs : Nat) (p1c : Nat) (p2c : Option Nat)
    (files : List String) : TaskTrace :=
  if strBlank text then
    { status := TaskStatus.failed, files := files, verifyRuns := runs, choice := some choice,
      p1Count := some p1c, p2Count := p2c, total := total, finalFound := none,
      rankingRan := false }
  else
    let rr := runRanking text inp.rosters inp.rankResp
    let files2 := files ++ rr.1.map (fun pr => "4_" ++ catLower pr.1 ++ "_extraction.json")
    { status := computeStatus rr.1 vdoubts p1c total rr.2, files := files2,
      verifyRuns := runs, choice := some choice, p1Count := some p1c, p2Count := p2c,
      total := total, finalFound := some rr.2, rankingRan := true }

/-- Body of process_task's try block (orchestrator.py lines 140-298).
task_id.split with a piece count other than two raises ValueError on
unpacking; an empty combined roster sets success and raises StopIteration
(caught separately, preserving the status); each later stage failure
raises and the handler sets failed. -/
def processBody (inp : TaskInputs) : TaskTrace :=
  if splitPieces inp.taskId '_' ≠ 2 then failTrace [] 0 0
  else
    let files0 := ["0_target_lists.json"]
    let combined := combinedOf inp.rosters
    let total := combined.length
    if total = 0 then
      { status := TaskStatus.success, files := files0, verifyRuns := 0, choice := none,
        p1Count := none, p2Count := none, total := 0, finalFound := none, rankingRan := false }
    else
      match inp.mdContent with
      | none => failTrace files0 0 total
      | some md =>
        let files1 := files0 ++ ["1_intermediate.md"]
        if strBlank md then failTrace files1 0 total
        else
          match inp.coreBlocks with
          | none => failTrace files1 0 total
          | some cb =>
            let files2 := files1 ++ ["2_core_blocks.json"]
            let p1Text := p1TextOf cb
            let files3 := if cb.tables.isEmpty then files2 else files2 ++ ["3_p1_source_text.md"]
            match runVerification p1Text combined inp.p1Resp with
            | none => failTrace files3 1 total
            | some pr1 =>
              let p1c := pr1.1.length
              let files4 := files3 ++ ["3_p1_verification.json"]
              if p1c = total then
                afterSelection inp total Src.P1 p1Text pr1.2.doubts 1 p1c none files4
              else
                let p2Text := p2TextOf cb
                let files5 :=
                  match cb.employmentSection with
                  | some _ => files4 ++ ["3_p2_source_text.md"]
                  | none => files4
                match runVerification p2Text combined inp.p2Resp with
                | none => { failTrace files5 2 total with p1Count := some p1c }
                | some pr2 =>
                  let p2c := pr2.1.length
                  let files6 := files5 ++ ["3_p2_verification.json"]
                  if p1c < p2c then
                    afterSelection inp total Src.P2 p2Text pr2.2.doubts 2 p1c (some p2c) files6
                  else
                    afterSelection inp total Src.P1 p1Text pr1.2.doubts 2 p1c (some p2c) files6

/-- process_task (orchestrator.py lines 117-321): the try body runs, and
the finally block appends the task log to the debug bundle on every path
before the status is returned. -/
def processTask (inp : TaskInputs) : TaskTrace :=
  let b := processBody inp
  { b with files := b.files ++ ["5_" ++ inp.taskId ++ ".log"] }

/-- Oracle verdict for one boundary-search attempt
(preprocessing schemas / orchestrator.py lines 152-181).  errV models a
page-extraction or AI exception, which breaks the loop like fail. -/
inductive Verdict where
  | matched
  | tooEarly
  | tooLate
  | failV
  | errV
deriving DecidableEq, Repr

def VERIFICATION_MAX_RETRIES : Nat := 10

/-- Chapter boundary search loop (preprocessing/orchestrator.py lines
127-181).  The oracle is a function of the attempt number, which subsumes
any dependence on the page content and the accumulated history.  Returns
the located physical index (none on failure) and the list of visited
indexes in visit order. -/
def locatorLoop (oracle : Nat → Verdict) (totalPages : Nat) :
    Nat → Nat → Int → List Int → Option Int × List Int
  | 0, _, _, visited => (none, visited)
  | fuel + 1, attempt, cur, visited =>
    if cur < 0 ∨ (totalPages : Int) ≤ cur then (none, visited)
    else if cur ∈ visited then (none, visited)
    else
      match oracle attempt with
      | Verdict.matched => (some cur, visited ++ [cur])
      | Verdict.tooEarly => locatorLoop oracle totalPages fuel (attempt + 1) (cur + 1) (visited ++ [cur])
      | Verdict.tooLate => locatorLoop oracle totalPages fuel (attempt + 1) (cur - 1) (visited ++ [cur])
      | Verdict.failV => (none, visited ++ [cur])
      | Verdict.errV => (none, visited ++ [cur])

/-- Full locator run: starts at tocStartPage - 1 with the fixed attempt
bound and an empty visited set (preprocessing/orchestrator.py lines
119-127). -/
def locateChapter (oracle : Nat → Verdict) (totalPages : Nat) (tocStartPage : Int) :
    Option Int × List Int :=
  locatorLoop oracle totalPages VERIFICATION_MAX_RETRIES 0 (tocStartPage - 1) []

/-- Ordering on persons by rank, as used by the CSV sort. -/
def rankLe (p q : Person) : Prop := p.rank ≤ q.rank

instance : DecidableRel rankLe := fun p q => inferInstanceAs (Decidable (p.rank ≤ q.rank))

instance : IsTotal Person rankLe := ⟨fun p q => Int.le_total p.rank q.rank⟩

instance : IsTrans Person rankLe := ⟨fun _ _ _ h1 h2 => le_trans h1 h2⟩

/-- save_results_csv (file_utils.py lines 35-59): the rows are sorted by
rank ascending before being written. -/
def savedCsvRows (persons : List Person) : List Person :=
  List.insertionSort rankLe persons

/-- The rows actually persisted for a category: process_task filters to
rank >= 0 before calling save_results_csv (orchestrator.py lines
282-285), which then sorts by rank. -/
def rankedOnlyRows (persons : List Person) : List Person :=
  savedCsvRows (persons.filter (fun p => 0 ≤ p.rank))

/-- Assessment b extends assessment a: the doubts of a form a prefix of
the doubts of b (append-only), and the confidence level either is
unchanged or is the Medium that the hallucination filter / completeness
backfill / count checks assign. -/
def extendsA (a b : ConfidenceAssessment) : Prop :=
  (∃ t, b.doubts = a.doubts ++ t) ∧
  (b.confidence_level = a.confidence_level ∨ b.confidence_level = Level.Medium)

/-- A ranking-oracle output that lists the same roster member twice (the
schema itself says a person with several concurrent roles may come back
under one name more than once): persons [zs, zs] against roster
[zs, ls]. -/
def cDupOut : CategoryExtractionResult :=
  ⟨Cat.Directors, [⟨1, "zs", "dir"⟩, ⟨2, "zs", "sup"⟩], ⟨Level.High, []⟩⟩

/-- Task input where P1 finds the whole (one-name) roster and every
per-category ranking call fails, for exercising the final status
computation. -/
def cInpC5 : TaskInputs :=
  { taskId := "1_2020",
    rosters := fun c => match c with | Cat.Directors => ["zs"] | _ => [],
    mdContent := some ("x"),
    coreBlocks := some ⟨[⟨"t", "zs"⟩], none⟩,
    p1Resp := some ⟨["zs"], ⟨Level.High, []⟩⟩,
    p2Resp := none,
    rankResp := fun _ => none }

/-- Task input identical to cInpC5, used to exercise the source-selection
branch where P1 verification finds the whole roster. -/
def cInpC4w : TaskInputs :=
  { taskId := "1_2020",
    rosters := fun c => match c with | Cat.Directors => ["zs"] | _ => [],
    mdContent := some ("x"),
    coreBlocks := some ⟨[⟨"t", "zs"⟩], none⟩,
    p1Resp := some ⟨["zs"], ⟨Level.High, []⟩⟩,
    p2Resp := none,
    rankResp := fun _ => none }

/-- Task input where both verification rounds find 0 of the 1-name roster
(P1 text is non-blank, P2 is absent), and the ranking oracle nevertheless
ranks the roster member. -/
def cInpC6 : TaskInputs :=
  { taskId := "1_2020",
    rosters := fun c => match c with | Cat.Directors => ["zs"] | _ => [],
    mdContent := some ("x"),
    coreBlocks := some ⟨[⟨"t", "foo"⟩], none⟩,
    p1Resp := some ⟨[], ⟨Level.High, []⟩⟩,
    p2Resp := none,
    rankResp := fun c => match c with
      | Cat.Directors => some ⟨Cat.Directors, [⟨1, "zs", "dir"⟩], ⟨Level.High, []⟩⟩
      | _ => none }

/-- Task input where neither candidate source text exists: no tables and
no employment section. -/
def cInpC6w : TaskInputs :=
  { taskId := "1_2020",
    rosters := fun c => match c with | Cat.Directors => ["zs"] | _ => [],
    mdContent := some ("x"),
    coreBlocks := some ⟨[], none⟩,
    p1Resp := none,
    p2Resp := none,
    rankResp := fun _ => none }

/-- Task input whose task id has no underscore, so unpacking
task_id.split fails at the very first stage. -/
def cInpC10w : TaskInputs :=
  { taskId := "abc",
    rosters := fun _ => [],
    mdContent := none,
    coreBlocks := none,
    p1Resp := none,
    p2Resp := none,
    rankResp := fun _ => none }

theorem extendsA_refl (a : ConfidenceAssessment) : extendsA a a :=
  ⟨⟨[], by simp⟩, Or.inl rfl⟩

theorem extendsA_trans {a b c : ConfidenceAssessment} (h1 : extendsA a b) (h2 : extendsA b c) :
    extendsA a c := by
  obtain ⟨⟨t1, ht1⟩, hl1⟩ := h1
  obtain ⟨⟨t2, ht2⟩, hl2⟩ := h2
  refine ⟨⟨t1 ++ t2, by rw [ht2, ht1, List.append_assoc]⟩, ?_⟩
  rcases hl2 with h | h
  · rw [h]; exact hl1
  · exact Or.inr h

theorem rankFilter_extendsA (target : List String) (ps : List Person) (a : ConfidenceAssessment) :
    extendsA a (rankFilter target ps a).2 := by
  simp only [rankFilter]
  split
  · exact extendsA_refl a
  · exact ⟨⟨[rankHallucinationDoubt _], rfl⟩, Or.inr rfl⟩

theorem extendsA_countStep (a : ConfidenceAssessment) (cond : Prop) [Decidable cond] (extra : String) :
    extendsA a (if cond then ⟨Level.Medium, a.doubts ++ [extra]⟩ else a) := by
  split
  · exact ⟨⟨[extra], rfl⟩, Or.inr rfl⟩
  · exact extendsA_refl a

theorem extendsA_step3 (a : ConfidenceAssessment) (cond : Bool) (extra : String) :
    extendsA a ⟨if a.confidence_level = Level.High then Level.Medium else a.confidence_level,
                if cond then a.doubts else a.doubts ++ [extra]⟩ := by
  unfold extendsA
  dsimp only
  constructor
  · split
    · exact ⟨[], by simp⟩
    · exact ⟨[extra], rfl⟩
  · split
    · exact Or.inr rfl
    · exact Or.inl rfl

theorem rankPost_extendsA (target : List String) (v r2 : CategoryExtractionResult)
    (h : rankPost target v = some r2) : extendsA v.assessment r2.assessment := by
  have hf := rankFilter_extendsA target v.persons v.assessment
  simp only [rankPost] at h
  split at h
  · exact absurd h (by simp)
  · split at h
    · rw [Option.some.injEq] at h
      subst h
      exact extendsA_trans hf (extendsA_countStep _ _ _)
    · rw [Option.some.injEq] at h
      subst h
      exact extendsA_trans (extendsA_trans hf (extendsA_countStep _ _ _)) (extendsA_step3 _ _ _)

theorem verifyPost_extendsA (target : List String) (r : NameVerificationResult) :
    extendsA r.assessment (verifyPost target r).assessment := by
  simp only [verifyPost]
  split
  · exact extendsA_refl _
  · exact ⟨⟨[verifyHallucinationDoubt _], rfl⟩, Or.inr rfl⟩

theorem orchSentinelStep_doubts (r : CategoryExtractionResult) :
    ∃ t, (orchSentinelStep r).assessment.doubts = r.assessment.doubts ++ t := by
  simp only [orchSentinelStep]
  split
  · dsimp only
    split
    · exact ⟨[], by simp⟩
    · exact ⟨_, rfl⟩
  · exact ⟨[], by simp⟩

theorem orchSentinelStep_level (r : CategoryExtractionResult) :
    levelValue ((orchSentinelStep r).assessment.confidence_level) ≤
      levelValue r.assessment.confidence_level := by
  simp only [orchSentinelStep]
  split
  · dsimp only
    split
    · rename_i hh
      rw [hh]
      decide
    · exact le_refl _
  · exact le_refl _

theorem orchDefensiveStep_doubts (target : List String) (r : CategoryExtractionResult) :
    ∃ t, (orchDefensiveStep target r).assessment.doubts = r.assessment.doubts ++ t := by
  simp only [orchDefensiveStep]
  split
  · exact ⟨_, rfl⟩
  · exact ⟨[], by simp⟩

theorem orchDefensiveStep_level (target : List String) (r : CategoryExtractionResult) :
    levelValue ((orchDefensiveStep target r).assessment.confidence_level) ≤
      levelValue r.assessment.confidence_level := by
  simp only [orchDefensiveStep]
  split
  · exact Nat.zero_le _
  · exact le_refl _

theorem orchCategoryPost_doubts (target : List String) (r : CategoryExtractionResult) :
    ∃ t, (orchCategoryPost target r).1.assessment.doubts = r.assessment.doubts ++ t := by
  obtain ⟨t1, h1⟩ := orchSentinelStep_doubts r
  obtain ⟨t2, h2⟩ := orchDefensiveStep_doubts target (orchSentinelStep r)
  exact ⟨t1 ++ t2, by rw [orchCategoryPost, h2, h1, List.append_assoc]⟩

theorem orchCategoryPost_level (target : List String) (r : CategoryExtractionResult) :
    levelValue ((orchCategoryPost target r).1.assessment.confidence_level) ≤
      levelValue r.assessment.confidence_level :=
  le_trans (orchDefensiveStep_level target (orchSentinelStep r)) (orchSentinelStep_level r)

theorem locatorLoop_visited (oracle : Nat → Verdict) (totalPages : Nat) :
    ∀ (fuel attempt : Nat) (cur : Int) (visited : List Int), visited.Nodup →
      (locatorLoop oracle totalPages fuel attempt cur visited).2.Nodup ∧
      (locatorLoop oracle totalPages fuel attempt cur visited).2.length ≤ visited.length + fuel := by
  intro fuel
  induction fuel with
  | zero =>
    intro attempt cur visited h
    simpa [locatorLoop] using h
  | succ n ih =>
    intro attempt cur visited h
    rw [locatorLoop]
    by_cases h1 : cur < 0 ∨ (totalPages : Int) ≤ cur
    · rw [if_pos h1]
      refine ⟨h, ?_⟩
      show visited.length ≤ visited.length + (n + 1)
      omega
    · rw [if_neg h1]
      by_cases h2 : cur ∈ visited
      · rw [if_pos h2]
        refine ⟨h, ?_⟩
        show visited.length ≤ visited.length + (n + 1)
        omega
      · rw [if_neg h2]
        have hnd : (visited ++ [cur]).Nodup := by
          rw [List.nodup_append]
          refine ⟨h, List.nodup_singleton cur, ?_⟩
          intro x hx hxc
          rw [List.mem_singleton] at hxc
          exact h2 (hxc ▸ hx)
        have hlen : (visited ++ [cur]).length = visited.length + 1 := by simp
        cases hv : oracle attempt with
        | matched =>
          refine ⟨hnd, ?_⟩
          show (visited ++ [cur]).length ≤ visited.length + (n + 1)
          rw [hlen]
          omega
        | tooEarly =>
          have h3 := ih (attempt + 1) (cur + 1) (visited ++ [cur]) hnd
          refine ⟨h3.1, ?_⟩
          show (locatorLoop oracle totalPages n (attempt + 1) (cur + 1) (visited ++ [cur])).2.length ≤
            visited.length + (n + 1)
          have h4 := h3.2
          rw [hlen] at h4
          omega
        | tooLate =>
          have h3 := ih (attempt + 1) (cur - 1) (visited ++ [cur]) hnd
          refine ⟨h3.1, ?_⟩
          show (locatorLoop oracle totalPages n (attempt + 1) (cur - 1) (visited ++ [cur])).2.length ≤
            visited.length + (n + 1)
          have h4 := h3.2
          rw [hlen] at h4
          omega
        | failV =>
          refine ⟨hnd, ?_⟩
          show (visited ++ [cur]).length ≤ visited.length + (n + 1)
          rw [hlen]
          omega
        | errV =>
          refine ⟨hnd, ?_⟩
          show (visited ++ [cur]).length ≤ visited.length + (n + 1)
          rw [hlen]
          omega

theorem afterSelection_choice (inp : TaskInputs) (total : Nat) (choice : Src) (text : String)
    (vdoubts : List String) (runs : Nat) (p1c : Nat) (p2c : Option Nat) (files : List String) :
    (afterSelection inp total choice text vdoubts runs p1c p2c files).choice = some choice := by
  unfold afterSelection
  split
  · rfl
  · rfl

theorem afterSelection_verifyRuns (inp : TaskInputs) (total : Nat) (choice : Src) (text : String)
    (vdoubts : List String) (runs : Nat) (p1c : Nat) (p2c : Option Nat) (files : List String) :
    (afterSelection inp total choice text vdoubts runs p1c p2c files).verifyRuns = runs := by
  unfold afterSelection
  split
  · rfl
  · rfl

theorem afterSelection_p1Count (inp : TaskInputs) (total : Nat) (choice : Src) (text : String)
    (vdoubts : List String) (runs : Nat) (p1c : Nat) (p2c : Option Nat) (files : List String) :
    (afterSelection inp total choice text vdoubts runs p1c p2c files).p1Count = some p1c := by
  unfold afterSelection
  split
  · rfl
  · rfl

theorem afterSelection_p2Count (inp : TaskInputs) (total : Nat) (choice : Src) (text : String)
    (vdoubts : List String) (runs : Nat) (p1c : Nat) (p2c : Option Nat) (files : List String) :
    (afterSelection inp total choice text vdoubts runs p1c p2c files).p2Count = p2c := by
  unfold afterSelection
  split
  · rfl
  · rfl

theorem afterSelection_total (inp : TaskInputs) (total : Nat) (choice : Src) (text : String)
    (vdoubts : List String) (runs : Nat) (p1c : Nat) (p2c : Option Nat) (files : List String) :
    (afterSelection inp total choice text vdoubts runs p1c p2c files).total = total := by
  unfold afterSelection
  split
  · rfl
  · rfl

/-- Claim C1: the spec asserts roster closure — once reconciliation of a
ranking-oracle output completes, the set of person names equals the
category roster exactly.  The code violates this: a duplicated roster
member masks an omission (persons [zs, zs] against roster [zs, ls] passes
the count check and completes with ls missing), and whenever a roster
member is genuinely missing the backfill loop crashes on the unbound name
`schemas` and the whole reconciliation returns None instead of a closed
result. -/
theorem c1_roster_closure_violated :
    (rankPost ["zs", "ls"] cDupOut = some cDupOut ∧
      ¬ "ls" ∈ cDupOut.persons.map Person.name) ∧
    rankPost ["zs", "ls"] ⟨Cat.Directors, [⟨1, "zs", "dir"⟩], ⟨Level.High, []⟩⟩ = none := by
  decide

/-- Claim C2: the spec asserts that when the ranking oracle returns a
strict subset of the roster, the resolver synthesizes rank -1 sentinel
persons, appends a doubt, degrades confidence, and recovers locally.  The
code instead hits the unbound name `schemas` in the backfill loop
(llm_extractor.py line 363), the NameError is swallowed by the blanket
except, and rank_names_from_text returns None — no sentinel person, no
doubt, and the category is dropped by the orchestrator. -/
theorem c2_backfill_name_error :
    rankNamesResult Cat.Directors ["zs", "ls"]
      (some ⟨Cat.Directors, [⟨1, "zs", "dir"⟩], ⟨Level.High, []⟩⟩) = none := by
  decide

/-- Claim C3 counterexample: confidence is not monotone across every
mutating operation — the verifier hallucination filter assigns Medium
unconditionally, so an assessment that arrived as Low is upgraded to
Medium when a hallucinated name is filtered. -/
theorem c3_monotone_confidence_cex :
    (verifyPost ["zs"] ⟨["ww"], ⟨Level.Low, []⟩⟩).assessment.confidence_level = Level.Medium ∧
    ¬ levelValue ((verifyPost ["zs"] ⟨["ww"], ⟨Level.Low, []⟩⟩).assessment.confidence_level) ≤
        levelValue Level.Low := by
  decide

/-- Claim C3 as amended: doubts are append-only in every mutating
operation (verifier filter, ranking post-processing, orchestrator
sentinel and defensive checks); the orchestrator steps never upgrade the
level; the verifier filter and the ranking post-processing either leave
the level unchanged or assign exactly Medium — which upgrades an
already-Low assessment. -/
theorem c3_monotone_confidence_amended :
    (∀ (target : List String) (r : NameVerificationResult),
      extendsA r.assessment (verifyPost target r).assessment) ∧
    (∀ (target : List String) (v r2 : CategoryExtractionResult),
      rankPost target v = some r2 → extendsA v.assessment r2.assessment) ∧
    (∀ (target : List String) (r : CategoryExtractionResult),
      (∃ t, (orchCategoryPost target r).1.assessment.doubts = r.assessment.doubts ++ t) ∧
      levelValue ((orchCategoryPost target r).1.assessment.confidence_level) ≤
        levelValue r.assessment.confidence_level) :=
  ⟨verifyPost_extendsA, rankPost_extendsA,
   fun target r => ⟨orchCategoryPost_doubts target r, orchCategoryPost_level target r⟩⟩

/-- Claim C3 amended, witness: the ranking post-processing conjunct
applied at a concrete clean oracle output, whose reconciliation is the
identity. -/
theorem c3_monotone_confidence_amended_witness :
    extendsA (⟨Level.High, []⟩ : ConfidenceAssessment) (⟨Level.High, []⟩ : ConfidenceAssessment) :=
  c3_monotone_confidence_amended.2.1 ["zs"]
    ⟨Cat.Directors, [⟨1, "zs", "dir"⟩], ⟨Level.High, []⟩⟩
    ⟨Cat.Directors, [⟨1, "zs", "dir"⟩], ⟨Level.High, []⟩⟩ (by decide)

/-- Claim C4: dual-source selection — if P1's verification found-count
equals the combined roster size, P1 is selected after a single
verification run (no second oracle round-trip and no P2 count); otherwise
P2 is verified as well and the larger found-count wins, with ties always
selecting P1. -/
theorem c4_dual_source_selection (inp : TaskInputs) :
    ((processTask inp).p1Count = some (processTask inp).total →
      (processTask inp).choice = some Src.P1 ∧ (processTask inp).verifyRuns = 1 ∧
      (processTask inp).p2Count = none) ∧
    (∀ a b, (processTask inp).p1Count = some a → (processTask inp).p2Count = some b →
      (processTask inp).verifyRuns = 2 ∧
      (processTask inp).choice = some (if a < b then Src.P2 else Src.P1)) ∧
    (∀ a, (processTask inp).p1Count = some a → (processTask inp).p2Count = some a →
      (processTask inp).choice = some Src.P1) := by
  have e1 : (processTask inp).p1Count = (processBody inp).p1Count := by simp [processTask]
  have e2 : (processTask inp).p2Count = (processBody inp).p2Count := by simp [processTask]
  have e3 : (processTask inp).choice = (processBody inp).choice := by simp [processTask]
  have e4 : (processTask inp).verifyRuns = (processBody inp).verifyRuns := by simp [processTask]
  have e5 : (processTask inp).total = (processBody inp).total := by simp [processTask]
  rw [e1, e2, e3, e4, e5]
  clear e1 e2 e3 e4 e5
  unfold processBody
  by_cases h1 : splitPieces inp.taskId '_' ≠ 2
  · simp [h1, failTrace]
  · rw [if_neg h1]
    dsimp only
    by_cases h2 : (combinedOf inp.rosters).length = 0
    · simp [h2]
    · rw [if_neg h2]
      cases hmd : inp.mdContent with
      | none => simp [failTrace]
      | some md =>
        dsimp only
        by_cases h3 : strBlank md = true
        · simp [h3, failTrace]
        · rw [if_neg h3]
          cases hcb : inp.coreBlocks with
          | none => simp [failTrace]
          | some cb =>
            dsimp only
            cases hpv : runVerification (p1TextOf cb) (combinedOf inp.rosters) inp.p1Resp with
            | none => simp [failTrace]
            | some pr1 =>
              dsimp only
              by_cases h5 : pr1.1.length = (combinedOf inp.rosters).length
              · rw [if_pos h5]
                refine ⟨?_, ?_, ?_⟩
                · intro _
                  exact ⟨afterSelection_choice _ _ _ _ _ _ _ _ _,
                         afterSelection_verifyRuns _ _ _ _ _ _ _ _ _,
                         afterSelection_p2Count _ _ _ _ _ _ _ _ _⟩
                · intro a b ha hb
                  rw [afterSelection_p2Count] at hb
                  exact absurd hb (by simp)
                · intro a ha hb
                  rw [afterSelection_p2Count] at hb
                  exact absurd hb (by simp)
              · rw [if_neg h5]
                cases hpv2 : runVerification (p2TextOf cb) (combinedOf inp.rosters) inp.p2Resp with
                | none =>
                  refine ⟨?_, ?_, ?_⟩
                  · intro ha
                    simp only [failTrace] at ha
                    rw [Option.some.injEq] at ha
                    exact absurd ha h5
                  · intro a b ha hb
                    simp [failTrace] at hb
                  · intro a ha hb
                    simp [failTrace] at hb
                | some pr2 =>
                  dsimp only
                  by_cases h6 : pr1.1.length < pr2.1.length
                  · rw [if_pos h6]
                    refine ⟨?_, ?_, ?_⟩
                    · intro ha
                      rw [afterSelection_p1Count, afterSelection_total, Option.some.injEq] at ha
                      exact absurd ha h5
                    · intro a b ha hb
                      rw [afterSelection_p1Count, Option.some.injEq] at ha
                      rw [afterSelection_p2Count, Option.some.injEq] at hb
                      subst ha
                      subst hb
                      rw [if_pos h6]
                      exact ⟨afterSelection_verifyRuns _ _ _ _ _ _ _ _ _,
                             afterSelection_choice _ _ _ _ _ _ _ _ _⟩
                    · intro a ha hb
                      rw [afterSelection_p1Count, Option.some.injEq] at ha
                      rw [afterSelection_p2Count, Option.some.injEq] at hb
                      subst ha
                      rw [hb] at h6
                      exact absurd h6 (lt_irrefl _)
                  · rw [if_neg h6]
                    refine ⟨?_, ?_, ?_⟩
                    · intro ha
                      rw [afterSelection_p1Count, afterSelection_total, Option.some.injEq] at ha
                      exact absurd ha h5
                    · intro a b ha hb
                      rw [afterSelection_p1Count, Option.some.injEq] at ha
                      rw [afterSelection_p2Count, Option.some.injEq] at hb
                      subst ha
                      subst hb
                      rw [if_neg h6]
                      exact ⟨afterSelection_verifyRuns _ _ _ _ _ _ _ _ _,
                             afterSelection_choice _ _ _ _ _ _ _ _ _⟩
                    · intro a ha hb
                      exact afterSelection_choice _ _ _ _ _ _ _ _ _

/-- Claim C4, witness: a run whose P1 verification finds the whole
roster selects P1 after one verification run. -/
theorem c4_dual_source_selection_witness :
    (processTask cInpC4w).choice = some Src.P1 ∧ (processTask cInpC4w).verifyRuns = 1 ∧
    (processTask cInpC4w).p2Count = none :=
  (c4_dual_source_selection cInpC4w).1 (by decide)

/-- Claim C5 counterexample: a task where P1 verification found 100% of
the roster (1 of 1) and final ranking found 0 (every per-category ranking
call failed, so no results exist) ends in status failed, not the review
the claim requires. -/
theorem c5_forced_review_cex :
    (processTask cInpC5).p1Count = some 1 ∧ (processTask cInpC5).total = 1 ∧
    (processTask cInpC5).finalFound = some 0 ∧
    (processTask cInpC5).status = TaskStatus.failed ∧
    ¬ (processTask cInpC5).status = TaskStatus.review := by
  decide

/-- Claim C5 as amended: when P1's verification found the whole combined
roster, final ranking found fewer, and at least one category produced a
ranking result, the final status is review regardless of the
per-category confidence levels. -/
theorem c5_forced_review_amended (results : List (Cat × CategoryExtractionResult))
    (vdoubts : List String) (p1c total ff : Nat)
    (hres : results ≠ []) (hp1 : p1c = total) (hff : ff < total) :
    computeStatus results vdoubts p1c total ff = TaskStatus.review := by
  have hie : results.isEmpty = false := by
    cases results with
    | nil => exact absurd rfl hres
    | cons x xs => rfl
  unfold computeStatus
  rw [hie]
  dsimp only
  by_cases hnr : ((!vdoubts.isEmpty) ||
      results.any (fun pr =>
        pr.2.assessment.confidence_level ≠ Level.High || !pr.2.assessment.doubts.isEmpty)) = true
  · rw [if_pos hnr]
    rw [if_neg]
    intro hcon
    exact absurd hcon.2.2 (by simp)
  · rw [if_neg hnr]
    rw [if_pos ⟨hp1, hff, rfl⟩]

/-- Claim C5 amended, witness: a single perfect-confidence Directors
result with found-count 0 out of a roster of 1 and a full P1
verification is forced to review. -/
theorem c5_forced_review_amended_witness :
    computeStatus [(Cat.Directors, ⟨Cat.Directors, [⟨1, "zs", "dir"⟩], ⟨Level.High, []⟩⟩)]
      [] 1 1 0 = TaskStatus.review :=
  c5_forced_review_amended _ _ _ _ _ (List.cons_ne_nil _ _) rfl (by decide)

/-- Claim C6 counterexample: a task whose selected source (P1, winning a
0-to-0 tie) has non-blank text but 0 verified roster names still runs
ranking and even finishes with status success — the claimed failure with
no ranking does not happen. -/
theorem c6_no_usable_source_cex :
    (processTask cInpC6).p1Count = some 0 ∧ (processTask cInpC6).p2Count = some 0 ∧
    (processTask cInpC6).choice = some Src.P1 ∧
    (processTask cInpC6).rankingRan = true ∧
    (processTask cInpC6).status = TaskStatus.success ∧
    ¬ (processTask cInpC6).status = TaskStatus.failed := by
  decide

/-- Claim C6 as amended: the task fails with no ranking performed exactly
when no candidate text survives whitespace trimming — if both P1 and P2
texts are blank the run ends failed and ranking never runs; a winning
source whose verification found 0 names but whose text is non-blank
proceeds to ranking instead. -/
theorem c6_no_usable_source_amended (inp : TaskInputs) (md : String) (cb : CoreBlocks)
    (hid : splitPieces inp.taskId '_' = 2)
    (hros : combinedOf inp.rosters ≠ [])
    (hmd : inp.mdContent = some md) (hmdne : strBlank md = false)
    (hcb : inp.coreBlocks = some cb)
    (hp1 : strBlank (p1TextOf cb) = true) (hp2 : strBlank (p2TextOf cb) = true) :
    (processTask inp).status = TaskStatus.failed ∧ (processTask inp).rankingRan = false := by
  have e1 : (processTask inp).status = (processBody inp).status := by simp [processTask]
  have e2 : (processTask inp).rankingRan = (processBody inp).rankingRan := by simp [processTask]
  rw [e1, e2]
  have htot : ¬ (combinedOf inp.rosters).length = 0 := by
    intro h
    exact hros (List.length_eq_zero.mp h)
  unfold processBody
  rw [if_neg (by simp [hid]), if_neg htot, hmd]
  dsimp only
  rw [if_neg (by simp [hmdne]), hcb]
  dsimp only
  have hrv1 : runVerification (p1TextOf cb) (combinedOf inp.rosters) inp.p1Resp =
      some ([], { confidence_level := Level.Low, doubts := ["核对的原文内容为空。"] }) := by
    unfold runVerification
    rw [if_pos hp1]
  rw [hrv1]
  dsimp only
  rw [if_neg (by intro h; exact htot h.symm)]
  have hrv2 : runVerification (p2TextOf cb) (combinedOf inp.rosters) inp.p2Resp =
      some ([], { confidence_level := Level.Low, doubts := ["核对的原文内容为空。"] }) := by
    unfold runVerification
    rw [if_pos hp2]
  rw [hrv2]
  dsimp only
  rw [if_neg (by simp)]
  unfold afterSelection
  rw [if_pos hp1]
  exact ⟨rfl, rfl⟩

/-- Claim C6 amended, witness: a document with no tables and no
employment section fails with no ranking. -/
theorem c6_no_usable_source_amended_witness :
    (processTask cInpC6w).status = TaskStatus.failed ∧
    (processTask cInpC6w).rankingRan = false :=
  c6_no_usable_source_amended cInpC6w ("x") ⟨[], none⟩ (by decide) (by decide) rfl (by decide)
    rfl (by decide) (by decide)

/-- Claim C7: the chapter boundary locator visits each physical page
index at most once per run (the visit list has no duplicates), consults
the oracle at most 10 times (the fixed attempt bound), and an index
outside [0, N) or one already visited stops the search immediately as a
failure. -/
theorem c7_locator_cycle_safe (oracle : Nat → Verdict) (totalPages : Nat) (tocStartPage : Int) :
    (locateChapter oracle totalPages tocStartPage).2.Nodup ∧
    (locateChapter oracle totalPages tocStartPage).2.length ≤ VERIFICATION_MAX_RETRIES ∧
    (∀ (fuel attempt : Nat) (cur : Int) (visited : List Int),
      (cur < 0 ∨ (totalPages : Int) ≤ cur ∨ cur ∈ visited) →
      locatorLoop oracle totalPages (fuel + 1) attempt cur visited = (none, visited)) := by
  refine ⟨(locatorLoop_visited oracle totalPages VERIFICATION_MAX_RETRIES 0 (tocStartPage - 1) []
      List.nodup_nil).1, ?_, ?_⟩
  · have h := (locatorLoop_visited oracle totalPages VERIFICATION_MAX_RETRIES 0 (tocStartPage - 1) []
      List.nodup_nil).2
    simpa [locateChapter] using h
  · intro fuel attempt cur visited hstop
    rw [locatorLoop]
    by_cases h1 : cur < 0 ∨ (totalPages : Int) ≤ cur
    · rw [if_pos h1]
    · rw [if_neg h1]
      have h2 : cur ∈ visited := by
        rcases hstop with a | a | a
        · exact absurd (Or.inl a) h1
        · exact absurd (Or.inr a) h1
        · exact a
      rw [if_pos h2]

/-- Claim C7, witness: starting at physical index 7 in a 5-page document
stops immediately as failure. -/
theorem c7_locator_cycle_safe_witness :
    locatorLoop (fun _ => Verdict.matched) 5 1 0 7 [] = (none, []) :=
  (c7_locator_cycle_safe (fun _ => Verdict.matched) 5 3).2.2 0 0 7 [] (Or.inr (Or.inl (by decide)))

/-- Claim C8: the hallucination filter is idempotent — on an
already-filtered result (every returned name belongs to the roster) both
the verifier filter and the ranker filter are the identity: no name is
removed, no doubt is appended, the level is unchanged. -/
theorem c8_hallucination_filter_idempotent (roster : List String) (r : NameVerificationResult)
    (ps : List Person) (a : ConfidenceAssessment)
    (h1 : ∀ n ∈ r.found_names, n ∈ roster) (h2 : ∀ p ∈ ps, p.name ∈ roster) :
    verifyPost roster r = r ∧ rankFilter roster ps a = (ps, a) := by
  constructor
  · have hinv : (r.found_names.dedup).filter (fun n => !(roster.contains n)) = [] := by
      apply List.filter_eq_nil_iff.mpr
      intro n hn
      have hmem : n ∈ roster := h1 n (List.mem_dedup.mp hn)
      simp [hmem]
    simp only [verifyPost]
    rw [hinv]
    rfl
  · have hinv : ((ps.map Person.name).dedup).filter (fun n => !(roster.contains n)) = [] := by
      apply List.filter_eq_nil_iff.mpr
      intro n hn
      have hn2 := List.mem_dedup.mp hn
      rw [List.mem_map] at hn2
      obtain ⟨p, hp, hpe⟩ := hn2
      have hmem : n ∈ roster := hpe ▸ h2 p hp
      simp [hmem]
    simp only [rankFilter]
    rw [hinv]
    rfl

/-- Claim C8, witness: the filters are the identity on a concrete
already-filtered verification result and ranking person list. -/
theorem c8_hallucination_filter_idempotent_witness :
    verifyPost ["zs"] ⟨["zs"], ⟨Level.High, []⟩⟩ = ⟨["zs"], ⟨Level.High, []⟩⟩ ∧
    rankFilter ["zs"] [⟨1, "zs", "dir"⟩] ⟨Level.High, []⟩ = ([⟨1, "zs", "dir"⟩], ⟨Level.High, []⟩) :=
  c8_hallucination_filter_idempotent ["zs"] ⟨["zs"], ⟨Level.High, []⟩⟩ [⟨1, "zs", "dir"⟩]
    ⟨Level.High, []⟩ (by decide) (by decide)

/-- Claim C9 counterexample: the persisted per-category CSV does not
contain the sentinel rank = -1 rows — process_task filters to rank >= 0
before saving, so the sentinel person ls is absent from the persisted
rows. -/
theorem c9_sentinel_rows_cex :
    rankedOnlyRows [⟨1, "zs", "dir"⟩, ⟨-1, "ls", "N/A"⟩] = [⟨1, "zs", "dir"⟩] ∧
    (∀ p ∈ rankedOnlyRows [⟨1, "zs", "dir"⟩, ⟨-1, "ls", "N/A"⟩], ¬ p.name = "ls") := by
  decide

/-- Claim C9 as amended: the persisted per-category table contains one
row per reconciled person with rank >= 0 (sentinel rank = -1 rows are
excluded), sorted by rank ascending. -/
theorem c9_saved_rows_amended (persons : List Person) :
    (rankedOnlyRows persons).Sorted rankLe ∧
    (rankedOnlyRows persons).Perm (persons.filter (fun p => 0 ≤ p.rank)) :=
  ⟨List.sorted_insertionSort rankLe _, List.perm_insertionSort rankLe _⟩

/-- Claim C10: process_task is total at its public interface — the
status is always one of success, review, failed; the task log is the last
debug artifact saved on every path (the finally block); a malformed task
id, a failed PDF parse, or a failed core-block extraction each default
the status to failed rather than escaping. -/
theorem c10_process_task_total (inp : TaskInputs) :
    ((processTask inp).status = TaskStatus.success ∨
     (processTask inp).status = TaskStatus.review ∨
     (processTask inp).status = TaskStatus.failed) ∧
    (processTask inp).files.getLast? = some ("5_" ++ inp.taskId ++ ".log") ∧
    (splitPieces inp.taskId '_' ≠ 2 → (processTask inp).status = TaskStatus.failed) ∧
    (inp.mdContent = none → combinedOf inp.rosters ≠ [] → splitPieces inp.taskId '_' = 2 →
      (processTask inp).status = TaskStatus.failed) ∧
    (inp.coreBlocks = none → combinedOf inp.rosters ≠ [] → splitPieces inp.taskId '_' = 2 →
      (processTask inp).status = TaskStatus.failed) := by
  refine ⟨?_, ?_, ?_, ?_, ?_⟩
  · cases h : (processTask inp).status with
    | success => exact Or.inl rfl
    | review => exact Or.inr (Or.inl rfl)
    | failed => exact Or.inr (Or.inr rfl)
  · simp [processTask]
  · intro hbad
    have e1 : (processTask inp).status = (processBody inp).status := by simp [processTask]
    rw [e1]
    unfold processBody
    rw [if_pos hbad]
    rfl
  · intro hmd hros hid
    have e1 : (processTask inp).status = (processBody inp).status := by simp [processTask]
    rw [e1]
    have htot : ¬ (combinedOf inp.rosters).length = 0 := by
      intro h
      exact hros (List.length_eq_zero.mp h)
    unfold processBody
    rw [if_neg (by simp [hid]), if_neg htot, hmd]
    rfl
  · intro hcb hros hid
    have e1 : (processTask inp).status = (processBody inp).status := by simp [processTask]
    rw [e1]
    have htot : ¬ (combinedOf inp.rosters).length = 0 := by
      intro h
      exact hros (List.length_eq_zero.mp h)
    unfold processBody
    rw [if_neg (by simp [hid]), if_neg htot]
    cases hmd : inp.mdContent with
    | none => rfl
    | some md =>
      dsimp only
      by_cases h3 : strBlank md = true
      · rw [if_pos h3]
        rfl
      · rw [if_neg h3, hcb]
        rfl

/-- Claim C10, witness: a task id without an underscore ends failed. -/
theorem c10_process_task_total_witness :
    (processTask cInpC10w).status = TaskStatus.failed :=
  (c10_process_task_total cInpC10w).2.2.1 (by decide)

end ReportInfo
